import Mathlib

set_option maxRecDepth 1000000
set_option maxHeartbeats 4000000

/-!
# Verification of the DKIM signing core (erooster-mail/dkim)

A shallow embedding of the DKIM signing pipeline of this repository.
`src/sign.rs` (the `SignerBuilder` / `Signer` types and the signing
orchestrator) is translated directly from the source.  The crate modules it
calls (`canonicalization.rs`, `hash.rs`, `header.rs`, `lib.rs`) are not part
of the provided sources; they are modelled from the specification, and checked
against the end-to-end test vectors asserted inside `src/sign.rs`.

Bytes are modelled as `List Nat` (each entry < 256); machine integers that
matter for overflow are modelled as `Int` with explicit bounds.  All
definitions are executable, so the test vectors evaluate by `decide`.
-/

/-! ## Byte and string helpers -/

/-- ASCII bytes of a string (all inputs in this development are ASCII). -/
def strBytes (s : String) : List Nat := s.data.map Char.toNat

/-- Build a string back from ASCII byte values. -/
def bytesStr (l : List Nat) : String := String.mk (l.map Char.ofNat)

/-- ASCII lowercase of a byte. -/
def lowerByte (c : Nat) : Nat := if 65 ≤ c ∧ c ≤ 90 then c + 32 else c

/-- ASCII lowercase of a byte list. -/
def lowerBytes (l : List Nat) : List Nat := l.map lowerByte

/-- ASCII lowercase of a string (models Rust `str::to_lowercase` on the ASCII
inputs used by DKIM header names). -/
def lowerStr (s : String) : String := bytesStr (lowerBytes (strBytes s))

/-! ## SHA-256 / SHA-1 / SHA-512 (RFC 6234), executable over byte lists -/

/-- Truncate to a 32-bit word. -/
def w32 (n : Nat) : Nat := n % 4294967296

/-- Right rotation of a 32-bit word. -/
def rotr32 (n x : Nat) : Nat := w32 (x / 2 ^ n + x % 2 ^ n * 2 ^ (32 - n))

/-- Left rotation of a 32-bit word. -/
def rotl32 (n x : Nat) : Nat := x * 2 ^ n % 4294967296 + x / 2 ^ (32 - n)

/-- Bitwise complement of a 32-bit word. -/
def bnot32 (x : Nat) : Nat := 4294967295 - x

/-- Truncate to a 64-bit word. -/
def w64 (n : Nat) : Nat := n % 18446744073709551616

/-- Right rotation of a 64-bit word. -/
def rotr64 (n x : Nat) : Nat := w64 (x / 2 ^ n + x % 2 ^ n * 2 ^ (64 - n))

/-- Bitwise complement of a 64-bit word. -/
def bnot64 (x : Nat) : Nat := 18446744073709551615 - x

/-- `k` bytes of `n`, big-endian. -/
def beBytes : Nat → Nat → List Nat
  | 0, _ => []
  | k + 1, n => beBytes k (n / 256) ++ [n % 256]

/-- Big-endian byte list to natural number. -/
def beToNat (l : List Nat) : Nat := l.foldl (fun acc b => acc * 256 + b) 0

def chunksAux (sz : Nat) : Nat → List Nat → List (List Nat)
  | 0, _ => []
  | _ + 1, [] => []
  | fuel + 1, l => l.take sz :: chunksAux sz fuel (l.drop sz)

/-- Split a byte list into chunks of size `sz` (last chunk may be short). -/
def chunks (sz : Nat) (l : List Nat) : List (List Nat) := chunksAux sz l.length l

/-- Merkle-Damgard padding shared by the SHA family: append `128`, zeros, and
the bit length in a `lenBytes`-byte big-endian field, to a multiple of
`blockSize` bytes. -/
def shaPad (lenBytes blockSize : Nat) (msg : List Nat) : List Nat :=
  let padlen := (2 * blockSize - 1 - lenBytes - msg.length % blockSize) % blockSize
  msg ++ [128] ++ List.replicate padlen 0 ++ beBytes lenBytes (8 * msg.length)

def sha256K : List Nat :=
  [1116352408, 1899447441, 3049323471, 3921009573, 961987163, 1508970993,
   2453635748, 2870763221, 3624381080, 310598401, 607225278, 1426881987,
   1925078388, 2162078206, 2614888103, 3248222580, 3835390401, 4022224774,
   264347078, 604807628, 770255983, 1249150122, 1555081692, 1996064986,
   2554220882, 2821834349, 2952996808, 3210313671, 3336571891, 3584528711,
   113926993, 338241895, 666307205, 773529912, 1294757372, 1396182291,
   1695183700, 1986661051, 2177026350, 2456956037, 2730485921, 2820302411,
   3259730800, 3345764771, 3516065817, 3600352804, 4094571909, 275423344,
   430227734, 506948616, 659060556, 883997877, 958139571, 1322822218,
   1537002063, 1747873779, 1955562222, 2024104815, 2227730452, 2361852424,
   2428436474, 2756734187, 3204031479, 3329325298]

def sha256H0 : List Nat :=
  [1779033703, 3144134277, 1013904242, 2773480762, 1359893119, 2600822924,
   528734635, 1541459225]

def sha256Extend : Nat → List Nat → List Nat
  | 0, w => w
  | k + 1, w =>
    let n := w.length
    let a := w.getD (n - 15) 0
    let b := w.getD (n - 2) 0
    let s0 := Nat.xor (Nat.xor (rotr32 7 a) (rotr32 18 a)) (a / 2 ^ 3)
    let s1 := Nat.xor (Nat.xor (rotr32 17 b) (rotr32 19 b)) (b / 2 ^ 10)
    sha256Extend k (w ++ [w32 (w.getD (n - 16) 0 + s0 + w.getD (n - 7) 0 + s1)])

def sha256Round (st : Nat × Nat × Nat × Nat × Nat × Nat × Nat × Nat)
    (kw : Nat × Nat) : Nat × Nat × Nat × Nat × Nat × Nat × Nat × Nat :=
  let (a, b, c, d, e, f, g, h) := st
  let (kt, wt) := kw
  let s1 := Nat.xor (Nat.xor (rotr32 6 e) (rotr32 11 e)) (rotr32 25 e)
  let ch := Nat.xor (Nat.land e f) (Nat.land (bnot32 e) g)
  let t1 := w32 (h + s1 + ch + kt + wt)
  let s0 := Nat.xor (Nat.xor (rotr32 2 a) (rotr32 13 a)) (rotr32 22 a)
  let mj := Nat.xor (Nat.xor (Nat.land a b) (Nat.land a c)) (Nat.land b c)
  let t2 := w32 (s0 + mj)
  (w32 (t1 + t2), a, b, c, w32 (d + t1), e, f, g)

def sha256Block (h : List Nat) (block : List Nat) : List Nat :=
  let w := sha256Extend 48 ((chunks 4 block).map beToNat)
  let st0 := (h.getD 0 0, h.getD 1 0, h.getD 2 0, h.getD 3 0,
              h.getD 4 0, h.getD 5 0, h.getD 6 0, h.getD 7 0)
  let (a, b, c, d, e, f, g, hh) := (sha256K.zip w).foldl sha256Round st0
  [w32 (h.getD 0 0 + a), w32 (h.getD 1 0 + b), w32 (h.getD 2 0 + c),
   w32 (h.getD 3 0 + d), w32 (h.getD 4 0 + e), w32 (h.getD 5 0 + f),
   w32 (h.getD 6 0 + g), w32 (h.getD 7 0 + hh)]

/-- SHA-256 digest (32 bytes) of a byte list. -/
def sha256 (msg : List Nat) : List Nat :=
  (((chunks 64 (shaPad 8 64 msg)).foldl sha256Block sha256H0).map (beBytes 4)).flatten

def sha1H0 : List Nat :=
  [1732584193, 4023233417, 2562383102, 271733878, 3285377520]

def sha1Extend : Nat → List Nat → List Nat
  | 0, w => w
  | k + 1, w =>
    let n := w.length
    let x := Nat.xor (Nat.xor (w.getD (n - 3) 0) (w.getD (n - 8) 0))
             (Nat.xor (w.getD (n - 14) 0) (w.getD (n - 16) 0))
    sha1Extend k (w ++ [rotl32 1 x])

def sha1Round (st : Nat × Nat × Nat × Nat × Nat) (iw : Nat × Nat) :
    Nat × Nat × Nat × Nat × Nat :=
  let (a, b, c, d, e) := st
  let (i, wt) := iw
  let f :=
    if i < 20 then Nat.xor (Nat.land b c) (Nat.land (bnot32 b) d)
    else if i < 40 then Nat.xor (Nat.xor b c) d
    else if i < 60 then Nat.xor (Nat.xor (Nat.land b c) (Nat.land b d)) (Nat.land c d)
    else Nat.xor (Nat.xor b c) d
  let k :=
    if i < 20 then 1518500249
    else if i < 40 then 1859775393
    else if i < 60 then 2400959708
    else 3395469782
  (w32 (rotl32 5 a + f + e + k + wt), a, rotl32 30 b, c, d)

def sha1Block (h : List Nat) (block : List Nat) : List Nat :=
  let w := sha1Extend 64 ((chunks 4 block).map beToNat)
  let st0 := (h.getD 0 0, h.getD 1 0, h.getD 2 0, h.getD 3 0, h.getD 4 0)
  let (a, b, c, d, e) := ((List.range 80).zip w).foldl sha1Round st0
  [w32 (h.getD 0 0 + a), w32 (h.getD 1 0 + b), w32 (h.getD 2 0 + c),
   w32 (h.getD 3 0 + d), w32 (h.getD 4 0 + e)]

/-- SHA-1 digest (20 bytes) of a byte list (legacy RSA-SHA1 only). -/
def sha1 (msg : List Nat) : List Nat :=
  (((chunks 64 (shaPad 8 64 msg)).foldl sha1Block sha1H0).map (beBytes 4)).flatten

def sha512K : List Nat :=
  [4794697086780616226, 8158064640168781261, 13096744586834688815,
   16840607885511220156, 4131703408338449720, 6480981068601479193,
   10538285296894168987, 12329834152419229976, 15566598209576043074,
   1334009975649890238, 2608012711638119052, 6128411473006802146,
   8268148722764581231, 9286055187155687089, 11230858885718282805,
   13951009754708518548, 16472876342353939154, 17275323862435702243,
   1135362057144423861, 2597628984639134821, 3308224258029322869,
   5365058923640841347, 6679025012923562964, 8573033837759648693,
   10970295158949994411, 12119686244451234320, 12683024718118986047,
   13788192230050041572, 14330467153632333762, 15395433587784984357,
   489312712824947311, 1452737877330783856, 2861767655752347644,
   3322285676063803686, 5560940570517711597, 5996557281743188959,
   7280758554555802590, 8532644243296465576, 9350256976987008742,
   10552545826968843579, 11727347734174303076, 12113106623233404929,
   14000437183269869457, 14369950271660146224, 15101387698204529176,
   15463397548674623760, 17586052441742319658, 1182934255886127544,
   1847814050463011016, 2177327727835720531, 2830643537854262169,
   3796741975233480872, 4115178125766777443, 5681478168544905931,
   6601373596472566643, 7507060721942968483, 8399075790359081724,
   8693463985226723168, 9568029438360202098, 10144078919501101548,
   10430055236837252648, 11840083180663258601, 13761210420658862357,
   14299343276471374635, 14566680578165727644, 15097957966210449927,
   16922976911328602910, 17689382322260857208, 500013540394364858,
   748580250866718886, 1242879168328830382, 1977374033974150939,
   2944078676154940804, 3659926193048069267, 4368137639120453308,
   4836135668995329356, 5532061633213252278, 6448918945643986474,
   6902733635092675308, 7801388544844847127]

def sha512H0 : List Nat :=
  [7640891576956012808, 13503953896175478587, 4354685564936845355,
   11912009170470909681, 5840696475078001361, 11170449401992604703,
   2270897969802886507, 6620516959819538809]

def sha512Extend : Nat → List Nat → List Nat
  | 0, w => w
  | k + 1, w =>
    let n := w.length
    let a := w.getD (n - 15) 0
    let b := w.getD (n - 2) 0
    let s0 := Nat.xor (Nat.xor (rotr64 1 a) (rotr64 8 a)) (a / 2 ^ 7)
    let s1 := Nat.xor (Nat.xor (rotr64 19 b) (rotr64 61 b)) (b / 2 ^ 6)
    sha512Extend k (w ++ [w64 (w.getD (n - 16) 0 + s0 + w.getD (n - 7) 0 + s1)])

def sha512Round (st : Nat × Nat × Nat × Nat × Nat × Nat × Nat × Nat)
    (kw : Nat × Nat) : Nat × Nat × Nat × Nat × Nat × Nat × Nat × Nat :=
  let (a, b, c, d, e, f, g, h) := st
  let (kt, wt) := kw
  let s1 := Nat.xor (Nat.xor (rotr64 14 e) (rotr64 18 e)) (rotr64 41 e)
  let ch := Nat.xor (Nat.land e f) (Nat.land (bnot64 e) g)
  let t1 := w64 (h + s1 + ch + kt + wt)
  let s0 := Nat.xor (Nat.xor (rotr64 28 a) (rotr64 34 a)) (rotr64 39 a)
  let mj := Nat.xor (Nat.xor (Nat.land a b) (Nat.land a c)) (Nat.land b c)
  let t2 := w64 (s0 + mj)
  (w64 (t1 + t2), a, b, c, w64 (d + t1), e, f, g)

def sha512Block (h : List Nat) (block : List Nat) : List Nat :=
  let w := sha512Extend 64 ((chunks 8 block).map beToNat)
  let st0 := (h.getD 0 0, h.getD 1 0, h.getD 2 0, h.getD 3 0,
              h.getD 4 0, h.getD 5 0, h.getD 6 0, h.getD 7 0)
  let (a, b, c, d, e, f, g, hh) := (sha512K.zip w).foldl sha512Round st0
  [w64 (h.getD 0 0 + a), w64 (h.getD 1 0 + b), w64 (h.getD 2 0 + c),
   w64 (h.getD 3 0 + d), w64 (h.getD 4 0 + e), w64 (h.getD 5 0 + f),
   w64 (h.getD 6 0 + g), w64 (h.getD 7 0 + hh)]

/-- SHA-512 digest (64 bytes) of a byte list (used inside Ed25519). -/
def sha512 (msg : List Nat) : List Nat :=
  (((chunks 128 (shaPad 16 128 msg)).foldl sha512Block sha512H0).map (beBytes 8)).flatten

/-! ## Base64 (standard alphabet, RFC 4648) -/

def b64char (n : Nat) : Char :=
  "ABCDEFGHIJKLMNOPQRSTUVWXYZabcdefghijklmnopqrstuvwxyz0123456789+/".data.getD n
    (Char.ofNat 65)

def base64Chars : List Nat → List Char
  | [] => []
  | [a] => [b64char (a / 4), b64char (a % 4 * 16), Char.ofNat 61, Char.ofNat 61]
  | [a, b] => [b64char (a / 4), b64char (a % 4 * 16 + b / 16), b64char (b % 16 * 4),
               Char.ofNat 61]
  | a :: b :: c :: rest =>
      b64char (a / 4) :: b64char (a % 4 * 16 + b / 16) ::
      b64char (b % 16 * 4 + c / 64) :: b64char (c % 64) :: base64Chars rest

/-- Base64 encoding of a byte list (models the `base64` crate's `encode`). -/
def base64Encode (l : List Nat) : String := String.mk (base64Chars l)


/-! ## Ed25519 (RFC 8032) over the SHA-256 digest, as `ed25519_dalek` does
for `ExpandedSecretKey::sign` (PureEdDSA; the message passed by `sign.rs` is
the 32-byte header digest). -/

/-- The Ed25519 field prime `2 ^ 255 - 19`. -/
def edP : Nat := 57896044618658097711785492504343953926634992332820282019728792003956564819949

/-- The Ed25519 group order. -/
def edL : Nat := 7237005577332262213973186563042994240857116359379907606001950938285454250989

/-- The twisted Edwards curve constant `d`. -/
def edD : Nat := 37095705934669439343138083508754565189542113879843219016388785533085940283555

/-- Basepoint x coordinate. -/
def edBx : Nat := 15112221349535400772501151409588531511454012693041857206046113283949847762202

/-- Basepoint y coordinate. -/
def edBy : Nat := 46316835694926478169428394003475163141307993866256225615783033603165251855960

/-- Modular exponentiation by binary recursion on a fuel bound. -/
def powModAux : Nat → Nat → Nat → Nat → Nat
  | 0, _, _, m => 1 % m
  | fuel + 1, b, e, m =>
    if e = 0 then 1 % m
    else
      let h := powModAux fuel b (e / 2) m
      if e % 2 = 1 then h * h % m * b % m else h * h % m

/-- `b ^ e % m` for exponents below `2 ^ 300`. -/
def powMod (b e m : Nat) : Nat := powModAux 300 b e m

/-- A curve point in extended homogeneous coordinates `(X, Y, Z, T)`. -/
def EdPoint : Type := Nat × Nat × Nat × Nat

/-- Point addition on the twisted Edwards curve (extended coordinates). -/
def edAdd (P Q : EdPoint) : EdPoint :=
  let (x1, y1, z1, t1) := P
  let (x2, y2, z2, t2) := Q
  let a := (y1 + edP - x1) * (y2 + edP - x2) % edP
  let b := (y1 + x1) * (y2 + x2) % edP
  let c := 2 * t1 % edP * t2 % edP * edD % edP
  let d := 2 * z1 * z2 % edP
  let e := (b + edP - a) % edP
  let f := (d + edP - c) % edP
  let g := (d + c) % edP
  let h := (b + a) % edP
  (e * f % edP, g * h % edP, f * g % edP, e * h % edP)

/-- Double-and-add scalar multiplication (fuel-bounded binary recursion). -/
def edSmulAux : Nat → Nat → EdPoint → EdPoint → EdPoint
  | 0, _, _, acc => acc
  | fuel + 1, s, P, acc =>
    if s = 0 then acc
    else edSmulAux fuel (s / 2) (edAdd P P) (if s % 2 = 1 then edAdd acc P else acc)

/-- Scalar multiplication `s * P`. -/
def edSmul (s : Nat) (P : EdPoint) : EdPoint := edSmulAux 260 s P (0, 1, 1, 0)

/-- `k` bytes of `n`, little-endian. -/
def leBytes : Nat → Nat → List Nat
  | 0, _ => []
  | k + 1, n => n % 256 :: leBytes k (n / 256)

/-- Little-endian byte list to natural number. -/
def leToNat (l : List Nat) : Nat := l.foldr (fun b acc => b + 256 * acc) 0

/-- Compressed encoding of a point: `y` with the sign bit of `x` on top. -/
def edEncode (P : EdPoint) : List Nat :=
  let (x, y, z, _) := P
  let zi := powMod z (edP - 2) edP
  let xa := x * zi % edP
  let ya := y * zi % edP
  leBytes 32 (ya + xa % 2 * 2 ^ 255)

/-- RFC 8032 secret scalar clamping. -/
def edClamp (a : Nat) : Nat := a % 2 ^ 254 / 8 * 8 + 2 ^ 254

/-- Ed25519 signature (64 bytes) of `msg` under the 32-byte `secret` seed with
public key bytes `pub32` (models `ed25519_dalek::ExpandedSecretKey::sign`). -/
def ed25519Sign (secret pub32 msg : List Nat) : List Nat :=
  let h := sha512 secret
  let a := edClamp (leToNat (h.take 32))
  let pre := h.drop 32
  let r := leToNat (sha512 (pre ++ msg)) % edL
  let rb := edEncode (edSmul r (edBx, edBy, 1, edBx * edBy % edP))
  let k := leToNat (sha512 (rb ++ pub32 ++ msg)) % edL
  let s := (r + k * a) % edL
  rb ++ leBytes 32 s

/-- The Ed25519 test secret key. Modelled from the spec: `test/keys/ed.private`
is not under `src/`; the spec identifies Vector 2 as the RFC 6376 / RFC 8463
example, whose sample private key (RFC 8463, appendix A) these bytes are. -/
def edTestSecret : List Nat :=
  [157, 97, 177, 157, 239, 253, 90, 96, 186, 132, 74, 244, 146, 236, 44, 196,
   68, 73, 197, 105, 123, 50, 105, 25, 112, 59, 172, 3, 28, 174, 127, 96]

/-- The Ed25519 test public key. Modelled from the spec: `test/keys/ed.public`
is not under `src/`; these are the RFC 8463 appendix A sample public key bytes
(they are the public key derived from `edTestSecret`). -/
def edTestPublic : List Nat :=
  [215, 90, 152, 1, 130, 177, 10, 183, 213, 75, 254, 211, 201, 100, 7, 58,
   14, 225, 114, 243, 218, 166, 35, 37, 175, 2, 26, 104, 247, 7, 81, 26]


/-! ## canonicalization.rs — modelled from the spec (§4.A); the module itself
is not under `src/`. -/

/-- The `canonicalization::Type` enum of the crate. -/
inductive CanonType where
  | Simple
  | Relaxed
deriving DecidableEq

/-- Modelled from the spec: the `c=` tag values are `simple` / `relaxed`
(§6); `Display` for `canonicalization::Type`. -/
def CanonType.toStr : CanonType → String
  | .Simple => "simple"
  | .Relaxed => "relaxed"

/-- Modelled from the spec: `Default` for `canonicalization::Type` is
`Simple` (needed by `#[derive(Default)]` on `SignerBuilder`). -/
def CanonType.deflt : CanonType := CanonType.Simple

/-- Reduce every run of SP/HTAB to a single SP; `prev` records whether the
previous byte was whitespace. -/
def collapseWS : Bool → List Nat → List Nat
  | _, [] => []
  | prev, c :: rest =>
    if c = 32 ∨ c = 9 then
      if prev then collapseWS true rest else 32 :: collapseWS true rest
    else c :: collapseWS false rest

/-- Drop trailing spaces. -/
def stripTrailingSP (l : List Nat) : List Nat :=
  (l.reverse.dropWhile (fun c => c = 32)).reverse

/-- Drop leading and trailing spaces. -/
def stripSP (l : List Nat) : List Nat :=
  (stripTrailingSP l).dropWhile (fun c => c = 32)

/-- Split a byte list at every CRLF. -/
def splitCRLF : List Nat → List (List Nat)
  | [] => [[]]
  | 13 :: 10 :: rest => [] :: splitCRLF rest
  | c :: rest =>
    match splitCRLF rest with
    | [] => [[c]]
    | x :: xs => (c :: x) :: xs

/-- Split a byte list at every occurrence of the byte `b`. -/
def splitByte (b : Nat) : List Nat → List (List Nat)
  | [] => [[]]
  | c :: rest =>
    if c = b then [] :: splitByte b rest
    else match splitByte b rest with
      | [] => [[c]]
      | x :: xs => (c :: x) :: xs

/-- Remove every CRLF pair (used to unfold folded header values). -/
def removeCRLFBytes : List Nat → List Nat
  | [] => []
  | 13 :: 10 :: rest => removeCRLFBytes rest
  | c :: rest => c :: removeCRLFBytes rest

/-- The CRLF-separated lines of a body; a final CRLF terminator contributes no
extra empty line, an unterminated final fragment counts as a line. -/
def bodyLines (body : List Nat) : List (List Nat) :=
  let ps := splitCRLF body
  if ps.getLast? = some [] then ps.dropLast else ps

/-- Modelled from the spec: body canonicalization (§4.A). Simple removes all
trailing empty lines; an empty (or all-empty-lines) body canonicalizes to a
single CRLF, otherwise the body ends with exactly one CRLF. Relaxed first
reduces WSP runs to a single SP and strips trailing WSP on each line. -/
def canonicalize_body (t : CanonType) (body : List Nat) : List Nat :=
  let ls := bodyLines body
  let ls := match t with
    | CanonType.Simple => ls
    | CanonType.Relaxed => ls.map (fun l => stripTrailingSP (collapseWS false l))
  let ls := (ls.reverse.dropWhile (fun l => l.isEmpty)).reverse
  if ls.isEmpty then [13, 10] else (ls.map (fun l => l ++ [13, 10])).flatten

/-- Modelled from the spec: relaxed header canonicalization (§4.A) —
lowercase the name, unfold, reduce WSP runs, strip around the value,
terminate with CRLF. -/
def canonicalize_header_relaxed (name value : List Nat) : List Nat :=
  lowerBytes name ++ [58] ++ stripSP (collapseWS false (removeCRLFBytes value)) ++ [13, 10]

/-- Modelled from the spec: simple header canonicalization emits the header
as in the original octets — name, colon, value, CRLF (§4.A). -/
def canonicalize_header_simple (name value : List Nat) : List Nat :=
  name ++ [58] ++ value ++ [13, 10]

/-- Header canonicalization dispatch. -/
def canonicalize_header (t : CanonType) (name value : List Nat) : List Nat :=
  match t with
  | CanonType.Simple => canonicalize_header_simple name value
  | CanonType.Relaxed => canonicalize_header_relaxed name value

/-! ## lib.rs items — modelled from the spec (§7); the module is not under
`src/`. -/

/-- Modelled from the spec: the crate error type; only the variants reachable
from the signing path of `sign.rs` are modelled (§7). -/
inductive DKIMError where
  | BuilderError (msg : String)
  | UnsupportedHashAlgorithm (msg : String)
  | FailedToSign (msg : String)
deriving DecidableEq

/-- Rust `Result<α, DKIMError>` as used throughout the crate. -/
inductive RResult (α : Type) where
  | Ok (v : α)
  | Err (e : DKIMError)
deriving DecidableEq

/-- The `hash::HashAlgo` enum. -/
inductive HashAlgo where
  | RsaSha1
  | RsaSha256
  | Ed25519Sha256
deriving DecidableEq

/-- Debug rendering of a `HashAlgo` (Rust `format!("{:?}", hash)`). -/
def HashAlgo.debugStr : HashAlgo → String
  | .RsaSha1 => "RsaSha1"
  | .RsaSha256 => "RsaSha256"
  | .Ed25519Sha256 => "Ed25519Sha256"

/-- The `a=` tag value for a hash algorithm (`sign.rs` lines 179-183). -/
def HashAlgo.tagStr : HashAlgo → String
  | .RsaSha1 => "rsa-sha1"
  | .RsaSha256 => "rsa-sha256"
  | .Ed25519Sha256 => "ed25519-sha256"

/-- Modelled from the spec: the hasher is SHA-256, or SHA-1 for legacy
RSA-SHA1 (§4.B). -/
def hashDigest (algo : HashAlgo) (data : List Nat) : List Nat :=
  match algo with
  | HashAlgo.RsaSha1 => sha1 data
  | _ => sha256 data

/-- The `DKIM-Signature` header name constant of `lib.rs`. -/
def HEADER : String := "DKIM-Signature"

/-! ## header.rs — modelled from the spec (§4.C); the module is not under
`src/`. -/

/-- Render a tag list: `name=value` assignments joined by `"; "` with a final
`";"` (the in-repo test vectors show the emitted header in exactly this
unfolded single-line form). -/
def serializeTags : List (String × String) → String
  | [] => ""
  | [p] => p.1 ++ "=" ++ p.2 ++ ";"
  | p :: rest => p.1 ++ "=" ++ p.2 ++ "; " ++ serializeTags rest

/-- Modelled from the spec: a built DKIM header — an ordered tag list; its
text form `raw_bytes` is derived by `serializeTags` (§4.C). -/
structure DKIMHeader where
  tags : List (String × String)
deriving DecidableEq

instance : Inhabited DKIMHeader := ⟨⟨[]⟩⟩

/-- The rendered text form of the header value. -/
def DKIMHeader.raw_bytes (h : DKIMHeader) : String := serializeTags h.tags

/-- Look up a tag value. -/
def DKIMHeader.get_tag (h : DKIMHeader) (name : String) : Option String :=
  (h.tags.find? (fun p => p.1 = name)).map (fun p => p.2)

/-- `get_required_tag`, as used by `sign.rs` on tags it has just set. -/
def DKIMHeader.get_required_tag (h : DKIMHeader) (name : String) : String :=
  (h.get_tag name).getD ""

/-- Modelled from the spec: the DKIM header builder accumulates tag=value
pairs and stores the timestamp and expiry duration set by `set_time` /
`set_expiry` (§4.C). -/
structure DKIMHeaderBuilder where
  tags : List (String × String)
  time : Option Int
  expiry : Option Int
deriving DecidableEq

def DKIMHeaderBuilder.new : DKIMHeaderBuilder := ⟨[], none, none⟩

/-- Modelled from the spec: `add_tag` appends; a later addition with the same
name overwrites in place (§4.C). -/
def DKIMHeaderBuilder.add_tag (b : DKIMHeaderBuilder) (name value : String) :
    DKIMHeaderBuilder :=
  if b.tags.any (fun p => p.1 = name) then
    { b with tags := b.tags.map (fun p => if p.1 = name then (name, value) else p) }
  else
    { b with tags := b.tags ++ [(name, value)] }

/-- Modelled from the spec: `set_signed_headers` emits an `h=` tag of the
colon-joined, lowercased header names in listed order, duplicates preserved
(§4.C). -/
def DKIMHeaderBuilder.set_signed_headers (b : DKIMHeaderBuilder)
    (headers : List String) : DKIMHeaderBuilder :=
  b.add_tag "h" (String.intercalate ":" (headers.map lowerStr))

/-- Modelled from the spec: `set_time` records the timestamp emitted as the
`t=` tag in decimal Unix seconds (§4.C). -/
def DKIMHeaderBuilder.set_time (b : DKIMHeaderBuilder) (t : Int) : DKIMHeaderBuilder :=
  { b with time := some t }

/-- Modelled from the spec: `set_expiry` fails when the duration is not
positive (§4.C, §7). -/
def DKIMHeaderBuilder.set_expiry (b : DKIMHeaderBuilder) (d : Int) :
    RResult DKIMHeaderBuilder :=
  if d ≤ 0 then RResult.Err (DKIMError.BuilderError "expiry must be a positive duration")
  else RResult.Ok { b with expiry := some d }

/-- Smallest `i64` value (the `time` crate stores Unix seconds in 64 bits). -/
def i64Min : Int := -9223372036854775808

/-- Largest `i64` value. -/
def i64Max : Int := 9223372036854775807

/-- Modelled from the spec: `build` renders the tags in the fixed emission
order v, a, d, s, c, bh, h, t, x, b — the stored time and expiry are emitted
as `t=` and then `x=` after the accumulated tags and before the `b=` tag;
`x=` is the Unix seconds of time + duration, and building fails if that sum
overflows the 64-bit time representation (§4.C; §9 notes the overflow check
as mandated by this spec). Absent optional tags are skipped. -/
def DKIMHeaderBuilder.build (b : DKIMHeaderBuilder) : RResult DKIMHeader :=
  let base := b.tags.filter (fun p => p.1 ≠ "b")
  let btag := b.tags.filter (fun p => p.1 = "b")
  let ttag := match b.time with
    | some t => [("t", toString t)]
    | none => []
  match b.time, b.expiry with
  | some t, some d =>
    if t + d < i64Min ∨ i64Max < t + d then
      RResult.Err (DKIMError.BuilderError "signature expiry overflow")
    else RResult.Ok ⟨base ++ ttag ++ [("x", toString (t + d))] ++ btag⟩
  | _, _ => RResult.Ok ⟨base ++ ttag ++ btag⟩

/-! ## The email interface — models the external `mailparse` collaborator as
described in spec §3. -/

/-- A parsed email: the ordered header list (name bytes, value bytes after
the colon) and the raw body octets. -/
structure Email where
  headers : List (List Nat × List Nat)
  bodyRaw : List Nat

/-- Split a header line at its first colon. -/
def splitAtColon : List Nat → List Nat × List Nat
  | [] => ([], [])
  | 58 :: rest => ([], rest)
  | c :: rest =>
    let p := splitAtColon rest
    (c :: p.1, p.2)

/-- Strip one trailing CR (header lines may end `\r\n` or bare `\n`). -/
def stripCR (l : List Nat) : List Nat :=
  if l.getLast? = some 13 then l.dropLast else l

/-- Accumulate header lines until the first blank line; a line starting with
WSP continues the previous header value (folding). -/
def parseHeaderLines : List (List Nat × List Nat) → List (List Nat) →
    List (List Nat × List Nat)
  | acc, [] => acc.reverse
  | acc, ln :: rest =>
    if ln.isEmpty then acc.reverse
    else if ln.head? = some 32 ∨ ln.head? = some 9 then
      match acc with
      | [] => parseHeaderLines [] rest
      | p :: accRest => parseHeaderLines ((p.1, p.2 ++ [13, 10] ++ ln) :: accRest) rest
    else parseHeaderLines (splitAtColon ln :: acc) rest

/-- Modelled from the spec: the body is the raw octets starting immediately
after the header/body CRLF-CRLF separator (§3), and empty when no such
separator occurs — as in the `test_sign_rsa` email of `src/sign.rs`, whose
raw string has bare LF line endings and whose expected `bh=` is the hash of
the canonical empty body. -/
def bodyAfterSeparator : List Nat → List Nat
  | 13 :: 10 :: 13 :: 10 :: rest => rest
  | _ :: rest => bodyAfterSeparator rest
  | [] => []

/-- Parse raw email bytes into the `Email` interface. -/
def parse_mail (raw : List Nat) : Email :=
  ⟨parseHeaderLines [] ((splitByte 10 raw).map stripCR), bodyAfterSeparator raw⟩

/-! ## hash.rs — modelled from the spec (§4.B, §4.E); the module is not under
`src/`. -/

/-- Modelled from the spec: `hash::compute_body_hash` — base64 of the digest
of the canonicalized body (§4.E steps 1-2; the `length` parameter is fixed to
`None` by `sign.rs` and therefore not modelled). -/
def hash.compute_body_hash (canon : CanonType) (algo : HashAlgo) (email : Email) :
    String :=
  base64Encode (hashDigest algo (canonicalize_body canon email.bodyRaw))

/-- Remove the first header (searching front to back) whose lowercased name
equals `name`, returning it and the remaining list. -/
def removeFirstMatch (name : List Nat) : List (List Nat × List Nat) →
    Option ((List Nat × List Nat) × List (List Nat × List Nat))
  | [] => none
  | h :: t =>
    if lowerBytes h.1 = name then some (h, t)
    else match removeFirstMatch name t with
      | none => none
      | some p => some (p.1, h :: p.2)

/-- Modelled from the spec: header selection for signing — for each listed
name, in order, take the last-occurring unused instance of that header and
mark it used (§4.A, RFC 6376 §5.4.2); a listing with no remaining instance
contributes nothing to the hash input (the null contribution of RFC 6376
§3.7, as exercised by the duplicate listings of the Ed25519 test vector in
`src/sign.rs`). -/
def selectHeaders : List (List Nat) → List (List Nat × List Nat) →
    List (List Nat × List Nat)
  | [], _ => []
  | n :: ns, hs =>
    match removeFirstMatch n hs.reverse with
    | some p => p.1 :: selectHeaders ns p.2.reverse
    | none => selectHeaders ns hs

/-- Modelled from the spec: the synthesized DKIM-Signature header is appended
last to the header-hash input with the `b=` value empty and no trailing CRLF
(§4.A, §4.E step 5); in simple mode it appears as emitted
(`"DKIM-Signature: " ++ value`), in relaxed mode canonicalized. -/
def dkimHeaderHashLine (canon : CanonType) (h : DKIMHeader) : List Nat :=
  match canon with
  | CanonType.Simple => strBytes (HEADER ++ ": " ++ h.raw_bytes)
  | CanonType.Relaxed =>
    (canonicalize_header_relaxed (strBytes HEADER) (strBytes h.raw_bytes)).dropLast.dropLast

/-- Modelled from the spec: `hash::compute_headers_hash` — concatenate the
canonicalized selected headers in `h=`-tag order, append the canonicalized
DKIM-Signature header with empty `b=`, and digest (§4.E steps 5-6). -/
def hash.compute_headers_hash (canon : CanonType) (signed_headers : String)
    (algo : HashAlgo) (dkim_header : DKIMHeader) (email : Email) : List Nat :=
  let names := splitByte 58 (strBytes signed_headers)
  let sel := selectHeaders names email.headers
  let inp := (sel.map (fun p => canonicalize_header canon p.1 p.2)).flatten ++
             dkimHeaderHashLine canon dkim_header
  hashDigest algo inp

/-! ## sign.rs — translated directly from the provided source. -/

/-- The RSA `PaddingScheme` selected by `Signer::sign` (`sign.rs` lines
151-152): PKCS#1 v1.5 with the hash named by the scheme. -/
inductive RsaPadding where
  | Pkcs1Sha1
  | Pkcs1Sha256
deriving DecidableEq

/-- `DkimPrivateKey` (`lib.rs`, used by `sign.rs`). The RSA arm abstracts the
external `rsa` crate: it carries the key material as its signing function
(padding scheme and digest to signature bytes; PKCS#1 v1.5 signing is
deterministic). The Ed25519 arm carries the raw 32-byte secret and public key
of `ed25519_dalek::Keypair`, signed concretely with `ed25519Sign`. -/
inductive DkimPrivateKey where
  | Rsa (rsaSign : RsaPadding → List Nat → List Nat)
  | Ed25519 (secret pub32 : List Nat)

/-- `SignerBuilder` (`sign.rs` lines 10-20). The `time` crate values are
modelled as Unix seconds (`OffsetDateTime` as `Int` seconds, `Duration` as
`Int` seconds). -/
structure SignerBuilder where
  signed_headers : Option (List String)
  private_key : Option DkimPrivateKey
  selector : Option String
  signing_domain : Option String
  time : Option Int
  header_canonicalization : CanonType
  body_canonicalization : CanonType
  expiry : Option Int

/-- `SignerBuilder::new` (`sign.rs` lines 24-35). -/
def SignerBuilder.new : SignerBuilder :=
  { signed_headers := none, private_key := none, selector := none,
    signing_domain := none, expiry := none, time := none,
    header_canonicalization := CanonType.Simple,
    body_canonicalization := CanonType.Simple }

/-- The `#[derive(Default)]` instance of `SignerBuilder`: every `Option`
field defaults to `None` and both canonicalization fields to the
`canonicalization::Type` default. -/
def SignerBuilder.mkDefault : SignerBuilder :=
  { signed_headers := none, private_key := none, selector := none,
    signing_domain := none, expiry := none, time := none,
    header_canonicalization := CanonType.deflt,
    body_canonicalization := CanonType.deflt }

/-- `SignerBuilder::with_signed_headers` (`sign.rs` lines 39-47): fails
unless some entry lowercases to `"from"`. -/
def SignerBuilder.with_signed_headers (b : SignerBuilder) (headers : List String) :
    RResult SignerBuilder :=
  match headers.find? (fun h => lowerStr h = "from") with
  | none => RResult.Err (DKIMError.BuilderError "missing From in signed headers")
  | some _ => RResult.Ok { b with signed_headers := some headers }

/-- `SignerBuilder::with_private_key` (`sign.rs` lines 50-53). -/
def SignerBuilder.with_private_key (b : SignerBuilder) (key : DkimPrivateKey) :
    SignerBuilder :=
  { b with private_key := some key }

/-- `SignerBuilder::with_selector` (`sign.rs` lines 56-59). -/
def SignerBuilder.with_selector (b : SignerBuilder) (value : String) : SignerBuilder :=
  { b with selector := some value }

/-- `SignerBuilder::with_signing_domain` (`sign.rs` lines 62-65). -/
def SignerBuilder.with_signing_domain (b : SignerBuilder) (value : String) :
    SignerBuilder :=
  { b with signing_domain := some value }

/-- `SignerBuilder::with_header_canonicalization` (`sign.rs` lines 68-71). -/
def SignerBuilder.with_header_canonicalization (b : SignerBuilder) (value : CanonType) :
    SignerBuilder :=
  { b with header_canonicalization := value }

/-- `SignerBuilder::with_body_canonicalization` (`sign.rs` lines 74-77). -/
def SignerBuilder.with_body_canonicalization (b : SignerBuilder) (value : CanonType) :
    SignerBuilder :=
  { b with body_canonicalization := value }

/-- `SignerBuilder::with_time` (`sign.rs` lines 80-83). -/
def SignerBuilder.with_time (b : SignerBuilder) (value : Int) : SignerBuilder :=
  { b with time := some value }

/-- `SignerBuilder::with_expiry` (`sign.rs` lines 86-89). -/
def SignerBuilder.with_expiry (b : SignerBuilder) (value : Int) : SignerBuilder :=
  { b with expiry := some value }

/-- `Signer` (`sign.rs` lines 125-135). -/
structure Signer where
  signed_headers : List String
  private_key : DkimPrivateKey
  selector : String
  signing_domain : String
  header_canonicalization : CanonType
  body_canonicalization : CanonType
  expiry : Option Int
  hash_algo : HashAlgo
  time : Option Int

/-- `SignerBuilder::build` (`sign.rs` lines 94-122): unwraps the four
required fields in source order (private key first), deriving `hash_algo`
from the key variant. -/
def SignerBuilder.build (b : SignerBuilder) : RResult Signer :=
  match b.private_key with
  | none => RResult.Err (DKIMError.BuilderError "missing required private key")
  | some private_key =>
    let hash_algo := match private_key with
      | DkimPrivateKey.Rsa _ => HashAlgo.RsaSha256
      | DkimPrivateKey.Ed25519 _ _ => HashAlgo.Ed25519Sha256
    match b.signed_headers with
    | none => RResult.Err (DKIMError.BuilderError "missing required signed headers")
    | some signed_headers =>
      match b.selector with
      | none => RResult.Err (DKIMError.BuilderError "missing required selector")
      | some selector =>
        match b.signing_domain with
        | none => RResult.Err (DKIMError.BuilderError "missing required logger")
        | some signing_domain =>
          RResult.Ok
            { signed_headers, private_key, selector, signing_domain,
              header_canonicalization := b.header_canonicalization,
              body_canonicalization := b.body_canonicalization,
              expiry := b.expiry, hash_algo, time := b.time }

/-- `Signer::compute_body_hash` (`sign.rs` lines 212-219). -/
def Signer.compute_body_hash (s : Signer) (email : Email) : String :=
  hash.compute_body_hash s.body_canonicalization s.hash_algo email

/-- `Signer::dkim_header_builder` (`sign.rs` lines 177-210): the tag
skeleton; `set_expiry` runs before `set_time`, and the time is the configured
timestamp or the `now` wall clock. -/
def Signer.dkim_header_builder (s : Signer) (body_hash : String) (now : Int) :
    RResult DKIMHeaderBuilder :=
  let hash_algo := s.hash_algo.tagStr
  let builder :=
    ((((((DKIMHeaderBuilder.new.add_tag "v" "1").add_tag "a" hash_algo).add_tag
      "d" s.signing_domain).add_tag "s" s.selector).add_tag "c"
      (s.header_canonicalization.toStr ++ "/" ++ s.body_canonicalization.toStr)).add_tag
      "bh" body_hash).set_signed_headers s.signed_headers
  match s.expiry with
  | some expiry =>
    match builder.set_expiry expiry with
    | RResult.Err e => RResult.Err e
    | RResult.Ok b2 => RResult.Ok (b2.set_time (s.time.getD now))
  | none => RResult.Ok (builder.set_time (s.time.getD now))

/-- `Signer::compute_header_hash` (`sign.rs` lines 221-239): the builder gets
`b=` with the empty value, is built, and the result is hashed together with
the selected headers. -/
def Signer.compute_header_hash (s : Signer) (email : Email)
    (dkim_header_builder : DKIMHeaderBuilder) : RResult (List Nat) :=
  match (dkim_header_builder.add_tag "b" "").build with
  | RResult.Err e => RResult.Err e
  | RResult.Ok dkim_header =>
    let signed_headers := dkim_header.get_required_tag "h"
    RResult.Ok (hash.compute_headers_hash s.header_canonicalization signed_headers
      s.hash_algo dkim_header email)

/-- `Signer::sign` (`sign.rs` lines 141-175) up to the final textual
rendering: body hash, header skeleton, header hash, signature dispatched on
the key variant (with the unsupported-hash error branch of lines 153-155),
then the final header with `b=` set to the base64 signature. -/
def Signer.signDKIMHeader (s : Signer) (email : Email) (now : Int) :
    RResult DKIMHeader :=
  let body_hash := s.compute_body_hash email
  match s.dkim_header_builder body_hash now with
  | RResult.Err e => RResult.Err e
  | RResult.Ok bld =>
    match s.compute_header_hash email bld with
    | RResult.Err e => RResult.Err e
    | RResult.Ok header_hash =>
      let sigRes : RResult (List Nat) :=
        match s.private_key with
        | DkimPrivateKey.Rsa rsaSign =>
          match s.hash_algo with
          | HashAlgo.RsaSha1 => RResult.Ok (rsaSign RsaPadding.Pkcs1Sha1 header_hash)
          | HashAlgo.RsaSha256 => RResult.Ok (rsaSign RsaPadding.Pkcs1Sha256 header_hash)
          | ha => RResult.Err (DKIMError.UnsupportedHashAlgorithm ha.debugStr)
        | DkimPrivateKey.Ed25519 secret pub32 =>
          RResult.Ok (ed25519Sign secret pub32 header_hash)
      match sigRes with
      | RResult.Err e => RResult.Err e
      | RResult.Ok signature => (bld.add_tag "b" (base64Encode signature)).build

/-- The DKIM-Signature header as it enters the header-hash input: the header
builder output with the empty `b=` tag added and built (`sign.rs` line 229,
via `compute_header_hash`). -/
def Signer.hashInputHeader (s : Signer) (email : Email) (now : Int) :
    RResult DKIMHeader :=
  match s.dkim_header_builder (s.compute_body_hash email) now with
  | RResult.Err e => RResult.Err e
  | RResult.Ok bld => (bld.add_tag "b" "").build

/-- `Signer::sign` (`sign.rs` line 174): `format!("{}: {}", HEADER, raw)`. -/
def Signer.sign (s : Signer) (email : Email) (now : Int) : RResult String :=
  match s.signDKIMHeader email now with
  | RResult.Err e => RResult.Err e
  | RResult.Ok dkim_header => RResult.Ok (HEADER ++ ": " ++ dkim_header.raw_bytes)

/-- Sign with a signer that itself came out of `SignerBuilder::build`. -/
def signResult (sres : RResult Signer) (email : Email) (now : Int) : RResult String :=
  match sres with
  | RResult.Err e => RResult.Err e
  | RResult.Ok s => s.sign email now

/-! ## The end-to-end test vectors of `src/sign.rs` -/

/-- The raw bytes of the `test_sign_rsa` email exactly as in `src/sign.rs`
(lines 252-257): bare LF line endings, and the body text is `Hello Alice`
followed by a line of eight spaces with no trailing newline. -/
def vector1EmailRaw : String :=
  "Subject: subject\nFrom: Sven Sauleau <sven@cloudflare.com>\n\nHello Alice\n        "

/-- The Vector 1 input email as transcribed by the spec and by claim C1:
CRLF line endings for the header block and a body of
`"Hello Alice\n        \r\n"`. -/
def vector1EmailRawCRLF : String :=
  "Subject: subject\r\nFrom: Sven Sauleau <sven@cloudflare.com>\r\n\r\nHello Alice\n        \r\n"

def vector1Email : Email := parse_mail (strBytes vector1EmailRaw)

def vector1EmailCRLF : Email := parse_mail (strBytes vector1EmailRawCRLF)

/-- The `test_sign_rsa` signer (`sign.rs` lines 265-273), parameterized by
the RSA backend signing function (the 2048-bit test key itself is not under
`src/`). The time is Unix seconds of 2021-01-01T00:00:01Z. -/
def vector1Signer (rsaSign : RsaPadding → List Nat → List Nat) : RResult Signer :=
  match SignerBuilder.new.with_signed_headers ["From", "Subject"] with
  | RResult.Err e => RResult.Err e
  | RResult.Ok b =>
    ((((b.with_private_key (DkimPrivateKey.Rsa rsaSign)).with_selector
      "s20").with_signing_domain "example.com").with_time 1609459201).build

/-- The Vector 1 signer record that the builder chain produces (used to state
intermediate equalities in the proof of the amended C1). -/
def vector1SignerS (rsaSign : RsaPadding → List Nat → List Nat) : Signer :=
  { signed_headers := ["From", "Subject"], private_key := DkimPrivateKey.Rsa rsaSign,
    selector := "s20", signing_domain := "example.com",
    header_canonicalization := CanonType.Simple,
    body_canonicalization := CanonType.Simple,
    expiry := none, hash_algo := HashAlgo.RsaSha256, time := some 1609459201 }

/-- The expected Vector 1 output up to and including `b=` (`src/sign.rs`
line 276 and spec §8 Vector 1). -/
def vector1Prefix : String :=
  "DKIM-Signature: v=1; a=rsa-sha256; d=example.com; s=s20; c=simple/simple; bh=frcCV1k9oG9oKj3dpUqdJg1PxRT2RSN/XKdLCPjaYaY=; h=from:subject; t=1609459201; b="

/-- The header-hash digest of Vector 1 (independent of the RSA backend: the
`b=` tag is empty in the hashed header). -/
def vector1HeaderDigest : List Nat :=
  match vector1Signer (fun _ _ => []) with
  | RResult.Ok s =>
    match s.dkim_header_builder (s.compute_body_hash vector1Email) 0 with
    | RResult.Ok bld =>
      match s.compute_header_hash vector1Email bld with
      | RResult.Ok d => d
      | RResult.Err _ => []
    | RResult.Err _ => []
  | RResult.Err _ => []

/-- The raw bytes of the `test_sign_ed25519` email (`sign.rs` lines 281-292):
the Joe SixPack message with CRLF line endings and no trailing newline. -/
def vector2EmailRaw : String :=
  "From: Joe SixPack <joe@football.example.com>\r\nTo: Suzie Q <suzie@shopping.example.net>\r\nSubject: Is dinner ready?\r\nDate: Fri, 11 Jul 2003 21:00:37 -0700 (PDT)\r\nMessage-ID: <20030712040037.46341.5F8J@football.example.com>\r\n\r\nHi.\r\n\r\nWe lost the game.  Are you hungry yet?\r\n\r\nJoe."

def vector2Email : Email := parse_mail (strBytes vector2EmailRaw)

/-- The `test_sign_ed25519` signer (`sign.rs` lines 310-329): the RFC 8463
keypair, relaxed/relaxed, selector brisbane, domain football.example.com,
time = Unix seconds of 2018-06-10T13:38:29Z. -/
def vector2Signer : RResult Signer :=
  match SignerBuilder.new.with_signed_headers
      ["From", "To", "Subject", "Date", "Message-ID", "From", "Subject", "Date"] with
  | RResult.Err e => RResult.Err e
  | RResult.Ok b =>
    ((((((b.with_private_key
      (DkimPrivateKey.Ed25519 edTestSecret edTestPublic)).with_body_canonicalization
      CanonType.Relaxed).with_header_canonicalization CanonType.Relaxed).with_selector
      "brisbane").with_signing_domain "football.example.com").with_time 1528637909).build

/-- The expected Vector 2 output, bit-exact (`src/sign.rs` line 332 and spec
§8 Vector 2). -/
def vector2Expected : String :=
  "DKIM-Signature: v=1; a=ed25519-sha256; d=football.example.com; s=brisbane; c=relaxed/relaxed; bh=2jUSOH9NhtVGCQWNr9BrIAPreKQjO6Sn7XIkfJVOzv8=; h=from:to:subject:date:message-id:from:subject:date; t=1528637909; b=wITr2H3sBuBfMsnUwlRTO7Oq/C/jd2vubDm50DrXtMFEBLRiz9GfrgCozcg764+gYqWXV3Snd1ynYh8sJ5BXBg==;"


/-! ## Concrete instances used by counterexamples and witnesses -/

/-- A stand-in RSA backend returning a fixed 256-byte signature (a 2048-bit
PKCS#1 v1.5 signature is always 256 bytes). -/
def zeroRsaSign : RsaPadding → List Nat → List Nat := fun _ _ => List.replicate 256 0

/-- The string payload of an `Ok` result (empty for errors). -/
def rresOk (r : RResult String) : String :=
  match r with
  | RResult.Ok s => s
  | RResult.Err _ => ""

/-- The header-hash digest obtained for the CRLF transcription of the
Vector 1 email (independent of the RSA backend). -/
def vector1HeaderDigestCRLF : List Nat :=
  match vector1Signer (fun _ _ => []) with
  | RResult.Ok s =>
    match s.dkim_header_builder (s.compute_body_hash vector1EmailCRLF) 0 with
    | RResult.Ok bld =>
      match s.compute_header_hash vector1EmailCRLF bld with
      | RResult.Ok d => d
      | RResult.Err _ => []
    | RResult.Err _ => []
  | RResult.Err _ => []

/-- Claim C1 exactly as stated: on the CRLF transcription of the Vector 1
email, `sign` returns the expected prefix followed by the base64 of the
256-byte RSA signature and a trailing semicolon. -/
def c1ClaimAsStated : Prop :=
  ∀ rsaSign : RsaPadding → List Nat → List Nat,
    (rsaSign RsaPadding.Pkcs1Sha256 vector1HeaderDigestCRLF).length = 256 →
    signResult (vector1Signer rsaSign) vector1EmailCRLF 0 =
    RResult.Ok (vector1Prefix ++
      (base64Encode (rsaSign RsaPadding.Pkcs1Sha256 vector1HeaderDigestCRLF) ++ ";"))

instance : Inhabited Signer :=
  ⟨{ signed_headers := [], private_key := DkimPrivateKey.Rsa (fun _ _ => []),
     selector := "", signing_domain := "",
     header_canonicalization := CanonType.Simple,
     body_canonicalization := CanonType.Simple,
     expiry := none, hash_algo := HashAlgo.RsaSha256, time := none }⟩

/-- A small concrete signer used to instantiate the universally quantified
theorems: RSA variant with the stand-in backend, explicit time. -/
def wSigner : Signer :=
  { signed_headers := ["From"], private_key := DkimPrivateKey.Rsa zeroRsaSign,
    selector := "sel", signing_domain := "example.org",
    header_canonicalization := CanonType.Simple,
    body_canonicalization := CanonType.Simple,
    expiry := none, hash_algo := HashAlgo.RsaSha256, time := some 5 }

/-- A minimal concrete email. -/
def wEmail : Email := parse_mail (strBytes "From: alice@example.org\r\n\r\nhi")

/-- The header emitted for `wSigner` on `wEmail`. -/
def wHdr : DKIMHeader :=
  match wSigner.signDKIMHeader wEmail 0 with
  | RResult.Ok h => h
  | RResult.Err _ => default

/-- A fully populated builder (every required field set). -/
def wBuilderFull : SignerBuilder :=
  { signed_headers := some ["From"], private_key := some (DkimPrivateKey.Rsa zeroRsaSign),
    selector := some "sel", signing_domain := some "example.org", time := some 5,
    header_canonicalization := CanonType.Simple,
    body_canonicalization := CanonType.Simple, expiry := none }

/-- The signer built from `wBuilderFull`. -/
def wBuiltSigner : Signer :=
  match wBuilderFull.build with
  | RResult.Ok s => s
  | RResult.Err _ => default

/-- The header emitted for `wBuiltSigner` on `wEmail`. -/
def wBuiltHdr : DKIMHeader :=
  match wBuiltSigner.signDKIMHeader wEmail 0 with
  | RResult.Ok h => h
  | RResult.Err _ => default

/-- A concrete signer with an expiry configured (time 100, expiry 5). -/
def w8Signer : Signer :=
  { wSigner with time := some 100, expiry := some 5 }

/-- The header emitted for `w8Signer` on `wEmail`. -/
def w8Hdr : DKIMHeader :=
  match w8Signer.signDKIMHeader wEmail 0 with
  | RResult.Ok h => h
  | RResult.Err _ => default

/-! ## Helper lemmas -/

theorem serializeTags_concat (l : List (String × String)) (n v : String) :
    ∃ X : String, serializeTags (l ++ [(n, v)]) = X ++ (n ++ "=" ++ v ++ ";") := by
  induction l with
  | nil => exact ⟨"", rfl⟩
  | cons p rest ih =>
    rcases ih with ⟨X, hX⟩
    rcases hq : rest ++ [(n, v)] with _ | ⟨q, tail⟩
    · exact absurd hq (by simp)
    · refine ⟨p.1 ++ "=" ++ p.2 ++ "; " ++ X, ?_⟩
      have hser : serializeTags (p :: (rest ++ [(n, v)])) =
          p.1 ++ "=" ++ p.2 ++ "; " ++ serializeTags (rest ++ [(n, v)]) := by
        rw [hq]; rfl
      rw [List.cons_append, hser, hX]
      exact (String.append_assoc _ _ _).symm

theorem get_tag_concat (l : List (String × String)) (bv : String) (n : String)
    (hn : n ≠ "b") :
    (DKIMHeader.mk (l ++ [("b", bv)])).get_tag n = (DKIMHeader.mk l).get_tag n := by
  have hbn : ¬ (("b" : String) = n) := fun h => hn h.symm
  unfold DKIMHeader.get_tag
  rw [List.find?_append]
  have hnone : List.find? (fun p => p.1 = n) [("b", bv)] = none := by
    simp [List.find?, hbn]
  rw [hnone]
  cases List.find? (fun p => p.1 = n) l <;> rfl

/-- C5: for a fixed configuration with an explicit time set and a fixed
email, `Signer::sign` does not depend on the wall clock — two calls (modelled
as calls at arbitrary wall-clock instants `n1`, `n2`) return identical
results, for every key variant (the signature primitives are deterministic
functions in the model: PKCS#1 v1.5 and Ed25519 are deterministic). -/
theorem sign_deterministic (s : Signer) (email : Email) (n1 n2 : Int)
    (h : s.time.isSome = true) : s.sign email n1 = s.sign email n2 := by
  obtain ⟨t, ht⟩ := Option.isSome_iff_exists.mp h
  simp [Signer.sign, Signer.signDKIMHeader, Signer.dkim_header_builder, ht]

/-- Witness for C5 at a concrete signer and email. -/
theorem sign_deterministic_witness : wSigner.sign wEmail 0 = wSigner.sign wEmail 99 :=
  sign_deterministic wSigner wEmail 0 99 (by decide)

/-- C6: `SignerBuilder::build` succeeds exactly when all four required fields
(private key, signed headers, selector, signing domain) are set, and returns
a configuration (`BuilderError`) error otherwise. -/
theorem build_requires_fields (b : SignerBuilder) :
    ((∃ s, b.build = RResult.Ok s) ↔
      (b.private_key.isSome = true ∧ b.signed_headers.isSome = true ∧
       b.selector.isSome = true ∧ b.signing_domain.isSome = true)) ∧
    (¬ (b.private_key.isSome = true ∧ b.signed_headers.isSome = true ∧
        b.selector.isSome = true ∧ b.signing_domain.isSome = true) →
      ∃ msg, b.build = RResult.Err (DKIMError.BuilderError msg)) := by
  obtain ⟨sh, pk, sel, dom, tm, hc, bc, ex⟩ := b
  cases pk <;> cases sh <;> cases sel <;> cases dom <;>
    simp [SignerBuilder.build]

/-- Witness for C6: the fully populated builder builds. -/
theorem build_requires_fields_witness :
    ∃ s, wBuilderFull.build = RResult.Ok s :=
  (build_requires_fields wBuilderFull).1.mpr (by decide)

/-- C7: registering signed headers fails with a configuration error exactly
when the list has no entry whose ASCII lowercase is `"from"`; the check lives
in `with_signed_headers` (registration), not in `build`. -/
theorem with_signed_headers_requires_from (b : SignerBuilder) (headers : List String) :
    ((∃ b2, b.with_signed_headers headers = RResult.Ok b2) ↔
      headers.any (fun h => lowerStr h = "from") = true) ∧
    (headers.any (fun h => lowerStr h = "from") = false →
      b.with_signed_headers headers =
        RResult.Err (DKIMError.BuilderError "missing From in signed headers")) := by
  cases hf : headers.find? (fun h => lowerStr h = "from") with
  | none =>
    have hany : headers.any (fun h => lowerStr h = "from") = false := by
      rw [List.any_eq_false]
      exact List.find?_eq_none.mp hf
    constructor
    · constructor
      · rintro ⟨b2, hb2⟩
        simp only [SignerBuilder.with_signed_headers, hf] at hb2
        cases hb2
      · intro h
        rw [hany] at h
        cases h
    · intro _
      simp only [SignerBuilder.with_signed_headers, hf]
  | some x =>
    have hmem := List.mem_of_find?_eq_some hf
    have hpx := List.find?_some hf
    have hany : headers.any (fun h => lowerStr h = "from") = true :=
      List.any_eq_true.mpr ⟨x, hmem, hpx⟩
    constructor
    · constructor
      · intro _
        exact hany
      · intro _
        refine ⟨{ b with signed_headers := some headers }, ?_⟩
        simp only [SignerBuilder.with_signed_headers, hf]
    · intro hfls
      rw [hany] at hfls
      cases hfls

/-- Witness for C7: a list containing `"From"` is accepted. -/
theorem with_signed_headers_requires_from_witness :
    ∃ b2, SignerBuilder.new.with_signed_headers ["From", "Subject"] = RResult.Ok b2 :=
  (with_signed_headers_requires_from SignerBuilder.new ["From", "Subject"]).1.mpr
    (by decide)

/-- The skeleton builder assembled by `dkim_header_builder`, in explicit
form. -/
theorem chain_eq (s : Signer) (bh : String) :
    ((((((DKIMHeaderBuilder.new.add_tag "v" "1").add_tag "a" s.hash_algo.tagStr).add_tag
      "d" s.signing_domain).add_tag "s" s.selector).add_tag "c"
      (s.header_canonicalization.toStr ++ "/" ++ s.body_canonicalization.toStr)).add_tag
      "bh" bh).set_signed_headers s.signed_headers =
    DKIMHeaderBuilder.mk
      [("v", "1"), ("a", s.hash_algo.tagStr), ("d", s.signing_domain),
       ("s", s.selector),
       ("c", s.header_canonicalization.toStr ++ "/" ++ s.body_canonicalization.toStr),
       ("bh", bh), ("h", String.intercalate ":" (s.signed_headers.map lowerStr))]
      none none := rfl

/-- Building after adding `b=` when no expiry is stored. -/
theorem build_addb_none (av dv sv cv bhv hv : String) (T : Int) (v : String) :
    ((DKIMHeaderBuilder.mk
      [("v", "1"), ("a", av), ("d", dv), ("s", sv), ("c", cv), ("bh", bhv), ("h", hv)]
      (some T) none).add_tag "b" v).build =
    RResult.Ok ⟨[("v", "1"), ("a", av), ("d", dv), ("s", sv), ("c", cv), ("bh", bhv),
      ("h", hv), ("t", toString T), ("b", v)]⟩ := rfl

/-- Building after adding `b=` with a stored expiry, no overflow. -/
theorem build_addb_some (av dv sv cv bhv hv : String) (T D : Int) (v : String)
    (hov : ¬ (T + D < i64Min ∨ i64Max < T + D)) :
    ((DKIMHeaderBuilder.mk
      [("v", "1"), ("a", av), ("d", dv), ("s", sv), ("c", cv), ("bh", bhv), ("h", hv)]
      (some T) (some D)).add_tag "b" v).build =
    RResult.Ok ⟨[("v", "1"), ("a", av), ("d", dv), ("s", sv), ("c", cv), ("bh", bhv),
      ("h", hv), ("t", toString T), ("x", toString (T + D)), ("b", v)]⟩ := by
  have h1 : ((DKIMHeaderBuilder.mk
      [("v", "1"), ("a", av), ("d", dv), ("s", sv), ("c", cv), ("bh", bhv), ("h", hv)]
      (some T) (some D)).add_tag "b" v) =
      DKIMHeaderBuilder.mk
      [("v", "1"), ("a", av), ("d", dv), ("s", sv), ("c", cv), ("bh", bhv), ("h", hv),
       ("b", v)] (some T) (some D) := rfl
  rw [h1]
  show (if T + D < i64Min ∨ i64Max < T + D then
      RResult.Err (DKIMError.BuilderError "signature expiry overflow")
    else RResult.Ok (DKIMHeader.mk [("v", "1"), ("a", av), ("d", dv), ("s", sv),
      ("c", cv), ("bh", bhv), ("h", hv), ("t", toString T),
      ("x", toString (T + D)), ("b", v)])) =
    RResult.Ok (DKIMHeader.mk [("v", "1"), ("a", av), ("d", dv), ("s", sv),
      ("c", cv), ("bh", bhv), ("h", hv), ("t", toString T),
      ("x", toString (T + D)), ("b", v)])
  rw [if_neg hov]

/-- Building after adding `b=` with a stored expiry that overflows. -/
theorem build_addb_some_err (av dv sv cv bhv hv : String) (T D : Int) (v : String)
    (hov : T + D < i64Min ∨ i64Max < T + D) :
    ((DKIMHeaderBuilder.mk
      [("v", "1"), ("a", av), ("d", dv), ("s", sv), ("c", cv), ("bh", bhv), ("h", hv)]
      (some T) (some D)).add_tag "b" v).build =
    RResult.Err (DKIMError.BuilderError "signature expiry overflow") := by
  have h1 : ((DKIMHeaderBuilder.mk
      [("v", "1"), ("a", av), ("d", dv), ("s", sv), ("c", cv), ("bh", bhv), ("h", hv)]
      (some T) (some D)).add_tag "b" v) =
      DKIMHeaderBuilder.mk
      [("v", "1"), ("a", av), ("d", dv), ("s", sv), ("c", cv), ("bh", bhv), ("h", hv),
       ("b", v)] (some T) (some D) := rfl
  rw [h1]
  show (if T + D < i64Min ∨ i64Max < T + D then
      RResult.Err (DKIMError.BuilderError "signature expiry overflow")
    else RResult.Ok (DKIMHeader.mk [("v", "1"), ("a", av), ("d", dv), ("s", sv),
      ("c", cv), ("bh", bhv), ("h", hv), ("t", toString T),
      ("x", toString (T + D)), ("b", v)])) =
    RResult.Err (DKIMError.BuilderError "signature expiry overflow")
  rw [if_pos hov]

/-- `set_expiry` with a positive duration stores it. -/
theorem set_expiry_pos (b : DKIMHeaderBuilder) (d : Int) (hd : 0 < d) :
    b.set_expiry d = RResult.Ok { b with expiry := some d } := by
  unfold DKIMHeaderBuilder.set_expiry
  rw [if_neg (by omega)]

/-- `set_expiry` with a non-positive duration fails. -/
theorem set_expiry_nonpos (b : DKIMHeaderBuilder) (d : Int) (hd : d ≤ 0) :
    b.set_expiry d =
      RResult.Err (DKIMError.BuilderError "expiry must be a positive duration") := by
  unfold DKIMHeaderBuilder.set_expiry
  rw [if_pos hd]

/-- The tag list of any header built by the signing pipeline: the seven
skeleton tags in order, then `t=`, then `x=` exactly when an expiry is
configured, then `b=` with the supplied value. -/
theorem built_header_tags (s : Signer) (bh : String) (now : Int)
    (bld : DKIMHeaderBuilder) (hdr : DKIMHeader) (v : String)
    (hb : s.dkim_header_builder bh now = RResult.Ok bld)
    (h : (bld.add_tag "b" v).build = RResult.Ok hdr) :
    hdr.tags =
      [("v", "1"), ("a", s.hash_algo.tagStr), ("d", s.signing_domain),
       ("s", s.selector),
       ("c", s.header_canonicalization.toStr ++ "/" ++ s.body_canonicalization.toStr),
       ("bh", bh), ("h", String.intercalate ":" (s.signed_headers.map lowerStr)),
       ("t", toString (s.time.getD now))] ++
      (match s.expiry with
       | some d => [("x", toString (s.time.getD now + d))]
       | none => []) ++ [("b", v)] := by
  unfold Signer.dkim_header_builder at hb
  cases hx : s.expiry with
  | none =>
    rw [hx] at hb
    simp only [chain_eq, DKIMHeaderBuilder.set_time, RResult.Ok.injEq] at hb
    subst hb
    rw [build_addb_none] at h
    simp only [RResult.Ok.injEq] at h
    subst h
    simp
  | some d =>
    rw [hx] at hb
    simp only [chain_eq] at hb
    by_cases hd : d ≤ 0
    · rw [set_expiry_nonpos _ _ hd] at hb
      simp at hb
    · rw [set_expiry_pos _ _ (by omega)] at hb
      simp only [DKIMHeaderBuilder.set_time, RResult.Ok.injEq] at hb
      subst hb
      by_cases hov : s.time.getD now + d < i64Min ∨ i64Max < s.time.getD now + d
      · rw [build_addb_some_err _ _ _ _ _ _ _ _ _ hov] at h
        simp at h
      · rw [build_addb_some _ _ _ _ _ _ _ _ _ hov] at h
        simp only [RResult.Ok.injEq] at h
        subst h
        simp

/-- Any successful `signDKIMHeader` factors as: skeleton builder succeeded,
and the final build with some `b=` signature value succeeded. -/
theorem signDKIMHeader_ok (s : Signer) (email : Email) (now : Int) (hdr : DKIMHeader)
    (h : s.signDKIMHeader email now = RResult.Ok hdr) :
    ∃ bld sig, s.dkim_header_builder (s.compute_body_hash email) now = RResult.Ok bld ∧
      (bld.add_tag "b" (base64Encode sig)).build = RResult.Ok hdr := by
  unfold Signer.signDKIMHeader at h
  dsimp only at h
  cases hb : s.dkim_header_builder (s.compute_body_hash email) now with
  | Err e => rw [hb] at h; simp at h
  | Ok bld =>
    rw [hb] at h
    dsimp only at h
    cases hch : s.compute_header_hash email bld with
    | Err e => rw [hch] at h; simp at h
    | Ok hh =>
      rw [hch] at h
      dsimp only at h
      cases hk : s.private_key with
      | Rsa f =>
        rw [hk] at h
        dsimp only at h
        cases ha : s.hash_algo with
        | RsaSha1 =>
          rw [ha] at h
          exact ⟨bld, f RsaPadding.Pkcs1Sha1 hh, rfl, h⟩
        | RsaSha256 =>
          rw [ha] at h
          exact ⟨bld, f RsaPadding.Pkcs1Sha256 hh, rfl, h⟩
        | Ed25519Sha256 =>
          rw [ha] at h
          simp at h
      | Ed25519 sk pk =>
        rw [hk] at h
        exact ⟨bld, ed25519Sign sk pk hh, rfl, h⟩

/-- A successful skeleton builder is exactly the seven tags plus the stored
time and expiry; and a stored expiry is necessarily positive. -/
theorem dkim_header_builder_shape (s : Signer) (bh : String) (now : Int)
    (bld : DKIMHeaderBuilder)
    (hb : s.dkim_header_builder bh now = RResult.Ok bld) :
    bld = DKIMHeaderBuilder.mk
      [("v", "1"), ("a", s.hash_algo.tagStr), ("d", s.signing_domain),
       ("s", s.selector),
       ("c", s.header_canonicalization.toStr ++ "/" ++ s.body_canonicalization.toStr),
       ("bh", bh), ("h", String.intercalate ":" (s.signed_headers.map lowerStr))]
      (some (s.time.getD now)) s.expiry ∧
    (∀ dd, s.expiry = some dd → 0 < dd) := by
  unfold Signer.dkim_header_builder at hb
  cases hx : s.expiry with
  | none =>
    rw [hx] at hb
    simp only [chain_eq, DKIMHeaderBuilder.set_time, RResult.Ok.injEq] at hb
    refine ⟨hb.symm, ?_⟩
    intro dd hdd
    cases hdd
  | some d =>
    rw [hx] at hb
    simp only [chain_eq] at hb
    by_cases hd : d ≤ 0
    · rw [set_expiry_nonpos _ _ hd] at hb
      simp at hb
    · rw [set_expiry_pos _ _ (by omega)] at hb
      simp only [DKIMHeaderBuilder.set_time, RResult.Ok.injEq] at hb
      refine ⟨hb.symm, ?_⟩
      intro dd hdd
      cases hdd
      omega

/-- C4: in every header emitted by `Signer::sign`, the tags appear in exactly
the order v, a, d, s, c, bh, h, t, then x (only when an expiry is
configured), then b; each tag appears exactly once; `v=1` is the first tag
and `b=` the last. -/
theorem emitted_tag_order (s : Signer) (email : Email) (now : Int) (hdr : DKIMHeader)
    (h : s.signDKIMHeader email now = RResult.Ok hdr) :
    hdr.tags.map Prod.fst =
      ["v", "a", "d", "s", "c", "bh", "h", "t"] ++
      (match s.expiry with | some _ => ["x"] | none => []) ++ ["b"] ∧
    (hdr.tags.map Prod.fst).Nodup ∧
    hdr.tags.head? = some ("v", "1") ∧
    hdr.tags.getLast?.map Prod.fst = some "b" := by
  obtain ⟨bld, sig, hb, hbuild⟩ := signDKIMHeader_ok s email now hdr h
  have htags := built_header_tags s _ now bld hdr _ hb hbuild
  cases hx : s.expiry with
  | none =>
    rw [hx] at htags
    have hmap : hdr.tags.map Prod.fst =
        ["v", "a", "d", "s", "c", "bh", "h", "t", "b"] := by
      rw [htags]
      rfl
    refine ⟨?_, ?_, ?_, ?_⟩
    · rw [hmap]
      rfl
    · rw [hmap]
      decide
    · rw [htags]
      rfl
    · rw [htags]
      rfl
  | some d =>
    rw [hx] at htags
    have hmap : hdr.tags.map Prod.fst =
        ["v", "a", "d", "s", "c", "bh", "h", "t", "x", "b"] := by
      rw [htags]
      rfl
    refine ⟨?_, ?_, ?_, ?_⟩
    · rw [hmap]
      rfl
    · rw [hmap]
      decide
    · rw [htags]
      rfl
    · rw [htags]
      rfl

/-- Witness for C4 at a concrete signer and email. -/
theorem emitted_tag_order_witness :
    wSigner.signDKIMHeader wEmail 0 = RResult.Ok wHdr ∧
    wHdr.tags.map Prod.fst =
      ["v", "a", "d", "s", "c", "bh", "h", "t"] ++
      (match wSigner.expiry with | some _ => ["x"] | none => []) ++ ["b"] :=
  ⟨by decide, (emitted_tag_order wSigner wEmail 0 wHdr (by decide)).1⟩

/-- C3: for every signer and email, the DKIM-Signature header entering the
header-hash input carries the `b=` tag with an empty value — the equals sign
and the trailing semicolon are present in its rendering but no signature
bytes — while every other tag has the same value as in the finally emitted
header. -/
theorem hash_input_empty_b (s : Signer) (email : Email) (now : Int)
    (hdr : DKIMHeader) (h : s.signDKIMHeader email now = RResult.Ok hdr) :
    ∃ h0, s.hashInputHeader email now = RResult.Ok h0 ∧
      h0.get_tag "b" = some "" ∧
      (∃ X, h0.raw_bytes = X ++ "b=;") ∧
      ∀ n, n ≠ "b" → h0.get_tag n = hdr.get_tag n := by
  obtain ⟨bld, sig, hb, hbuild⟩ := signDKIMHeader_ok s email now hdr h
  obtain ⟨hshape, hpos⟩ := dkim_header_builder_shape s _ now bld hb
  subst hshape
  unfold Signer.hashInputHeader
  rw [hb]
  dsimp only
  cases hx : s.expiry with
  | none =>
    rw [hx] at hbuild
    rw [build_addb_none] at hbuild
    simp only [RResult.Ok.injEq] at hbuild
    subst hbuild
    rw [build_addb_none]
    refine ⟨_, rfl, rfl, ?_, ?_⟩
    · exact serializeTags_concat
        [("v", "1"), ("a", s.hash_algo.tagStr), ("d", s.signing_domain),
         ("s", s.selector),
         ("c", s.header_canonicalization.toStr ++ "/" ++ s.body_canonicalization.toStr),
         ("bh", s.compute_body_hash email),
         ("h", String.intercalate ":" (s.signed_headers.map lowerStr)),
         ("t", toString (s.time.getD now))] "b" ""
    · intro n hn
      exact (get_tag_concat [("v", "1"), ("a", s.hash_algo.tagStr), ("d", s.signing_domain),
         ("s", s.selector),
         ("c", s.header_canonicalization.toStr ++ "/" ++ s.body_canonicalization.toStr),
         ("bh", s.compute_body_hash email),
         ("h", String.intercalate ":" (s.signed_headers.map lowerStr)),
         ("t", toString (s.time.getD now))] "" n hn).trans
        (get_tag_concat [("v", "1"), ("a", s.hash_algo.tagStr), ("d", s.signing_domain),
         ("s", s.selector),
         ("c", s.header_canonicalization.toStr ++ "/" ++ s.body_canonicalization.toStr),
         ("bh", s.compute_body_hash email),
         ("h", String.intercalate ":" (s.signed_headers.map lowerStr)),
         ("t", toString (s.time.getD now))] (base64Encode sig) n hn).symm
  | some d =>
    rw [hx] at hbuild
    by_cases hov : s.time.getD now + d < i64Min ∨ i64Max < s.time.getD now + d
    · rw [build_addb_some_err _ _ _ _ _ _ _ _ _ hov] at hbuild
      cases hbuild
    · rw [build_addb_some _ _ _ _ _ _ _ _ _ hov] at hbuild
      simp only [RResult.Ok.injEq] at hbuild
      subst hbuild
      rw [build_addb_some _ _ _ _ _ _ _ _ _ hov]
      refine ⟨_, rfl, rfl, ?_, ?_⟩
      · exact serializeTags_concat
          [("v", "1"), ("a", s.hash_algo.tagStr), ("d", s.signing_domain),
           ("s", s.selector),
           ("c", s.header_canonicalization.toStr ++ "/" ++ s.body_canonicalization.toStr),
           ("bh", s.compute_body_hash email),
           ("h", String.intercalate ":" (s.signed_headers.map lowerStr)),
           ("t", toString (s.time.getD now)),
           ("x", toString (s.time.getD now + d))] "b" ""
      · intro n hn
        exact (get_tag_concat [("v", "1"), ("a", s.hash_algo.tagStr), ("d", s.signing_domain),
           ("s", s.selector),
           ("c", s.header_canonicalization.toStr ++ "/" ++ s.body_canonicalization.toStr),
           ("bh", s.compute_body_hash email),
           ("h", String.intercalate ":" (s.signed_headers.map lowerStr)),
           ("t", toString (s.time.getD now)),
           ("x", toString (s.time.getD now + d))] "" n hn).trans
          (get_tag_concat [("v", "1"), ("a", s.hash_algo.tagStr), ("d", s.signing_domain),
           ("s", s.selector),
           ("c", s.header_canonicalization.toStr ++ "/" ++ s.body_canonicalization.toStr),
           ("bh", s.compute_body_hash email),
           ("h", String.intercalate ":" (s.signed_headers.map lowerStr)),
           ("t", toString (s.time.getD now)),
           ("x", toString (s.time.getD now + d))] (base64Encode sig) n hn).symm

/-- Witness for C3 at a concrete signer and email. -/
theorem hash_input_empty_b_witness :
    ∃ h0, wSigner.hashInputHeader wEmail 0 = RResult.Ok h0 ∧
      h0.get_tag "b" = some "" ∧
      (∃ X, h0.raw_bytes = X ++ "b=;") ∧
      ∀ n, n ≠ "b" → h0.get_tag n = wHdr.get_tag n :=
  hash_input_empty_b wSigner wEmail 0 wHdr (by decide)

/-- Any error from the skeleton builder is a configuration error. -/
theorem dkim_header_builder_err (s : Signer) (bh : String) (now : Int)
    (e : DKIMError) (h : s.dkim_header_builder bh now = RResult.Err e) :
    ∃ m, e = DKIMError.BuilderError m := by
  unfold Signer.dkim_header_builder at h
  cases hx : s.expiry with
  | none =>
    rw [hx] at h
    simp at h
  | some d =>
    rw [hx] at h
    simp only [chain_eq] at h
    by_cases hd : d ≤ 0
    · rw [set_expiry_nonpos _ _ hd] at h
      simp only [RResult.Err.injEq] at h
      exact ⟨_, h.symm⟩
    · rw [set_expiry_pos _ _ (by omega)] at h
      simp at h

/-- Any error from building a header is a configuration error. -/
theorem builder_build_err (b : DKIMHeaderBuilder) (e : DKIMError)
    (h : b.build = RResult.Err e) : ∃ m, e = DKIMError.BuilderError m := by
  unfold DKIMHeaderBuilder.build at h
  cases ht : b.time with
  | none =>
    cases hx : b.expiry with
    | none =>
      rw [ht, hx] at h
      simp at h
    | some d =>
      rw [ht, hx] at h
      simp at h
  | some t =>
    cases hx : b.expiry with
    | none =>
      rw [ht, hx] at h
      simp at h
    | some d =>
      rw [ht, hx] at h
      dsimp only at h
      split at h
      · simp only [RResult.Err.injEq] at h
        exact ⟨_, h.symm⟩
      · simp at h

/-- C8: when an expiry duration `d` is configured, the emitted `x=` tag is
the Unix seconds of the signing time plus `d`, and the signing pipeline fails
with an error when `d` is not positive or when `time + d` overflows the
64-bit time representation. -/
theorem expiry_tag_and_failure (s : Signer) (email : Email) (now : Int) (d : Int)
    (hx : s.expiry = some d) :
    (∀ hdr, s.signDKIMHeader email now = RResult.Ok hdr →
      hdr.get_tag "x" = some (toString (s.time.getD now + d)) ∧ 0 < d ∧
      ¬ (s.time.getD now + d < i64Min ∨ i64Max < s.time.getD now + d)) ∧
    ((d ≤ 0 ∨ s.time.getD now + d < i64Min ∨ i64Max < s.time.getD now + d) →
      ∃ e, s.signDKIMHeader email now = RResult.Err e) := by
  constructor
  · intro hdr h
    obtain ⟨bld, sig, hb, hbuild⟩ := signDKIMHeader_ok s email now hdr h
    obtain ⟨hshape, hpos⟩ := dkim_header_builder_shape s _ now bld hb
    subst hshape
    rw [hx] at hbuild
    by_cases hov : s.time.getD now + d < i64Min ∨ i64Max < s.time.getD now + d
    · rw [build_addb_some_err _ _ _ _ _ _ _ _ _ hov] at hbuild
      cases hbuild
    · rw [build_addb_some _ _ _ _ _ _ _ _ _ hov] at hbuild
      simp only [RResult.Ok.injEq] at hbuild
      subst hbuild
      exact ⟨rfl, hpos d hx, hov⟩
  · intro hcase
    by_cases hd : d ≤ 0
    · have hbErr : s.dkim_header_builder (s.compute_body_hash email) now =
          RResult.Err (DKIMError.BuilderError "expiry must be a positive duration") := by
        unfold Signer.dkim_header_builder
        rw [hx]
        simp only [chain_eq]
        rw [set_expiry_nonpos _ _ hd]
      refine ⟨DKIMError.BuilderError "expiry must be a positive duration", ?_⟩
      unfold Signer.signDKIMHeader
      dsimp only
      rw [hbErr]
    · have hov : s.time.getD now + d < i64Min ∨ i64Max < s.time.getD now + d :=
        hcase.resolve_left hd
      have hbOk : s.dkim_header_builder (s.compute_body_hash email) now =
          RResult.Ok (DKIMHeaderBuilder.mk
            [("v", "1"), ("a", s.hash_algo.tagStr), ("d", s.signing_domain),
             ("s", s.selector),
             ("c", s.header_canonicalization.toStr ++ "/" ++
               s.body_canonicalization.toStr),
             ("bh", s.compute_body_hash email),
             ("h", String.intercalate ":" (s.signed_headers.map lowerStr))]
            (some (s.time.getD now)) (some d)) := by
        unfold Signer.dkim_header_builder
        rw [hx]
        simp only [chain_eq]
        rw [set_expiry_pos _ _ (by omega)]
        rfl
      refine ⟨DKIMError.BuilderError "signature expiry overflow", ?_⟩
      unfold Signer.signDKIMHeader
      dsimp only
      rw [hbOk]
      dsimp only
      unfold Signer.compute_header_hash
      rw [build_addb_some_err _ _ _ _ _ _ _ _ _ hov]

/-- Witness for C8 at a concrete signer (time 100, expiry 5) and email. -/
theorem expiry_tag_and_failure_witness :
    w8Signer.signDKIMHeader wEmail 0 = RResult.Ok w8Hdr ∧
    w8Hdr.get_tag "x" = some (toString ((100 : Int) + 5)) :=
  ⟨by decide,
    ((expiry_tag_and_failure w8Signer wEmail 0 5 rfl).1 w8Hdr (by decide)).1⟩

/-- C9: a fresh (or `Default`) `SignerBuilder` uses Simple/Simple
canonicalization, and a signer built without touching the canonicalization
setters emits `c=simple/simple`. -/
theorem default_canonicalization :
    SignerBuilder.new.header_canonicalization = CanonType.Simple ∧
    SignerBuilder.new.body_canonicalization = CanonType.Simple ∧
    SignerBuilder.new = SignerBuilder.mkDefault ∧
    ∀ (b : SignerBuilder) (s : Signer) (email : Email) (now : Int) (hdr : DKIMHeader),
      b.header_canonicalization = CanonType.Simple →
      b.body_canonicalization = CanonType.Simple →
      b.build = RResult.Ok s →
      s.signDKIMHeader email now = RResult.Ok hdr →
      hdr.get_tag "c" = some "simple/simple" := by
  refine ⟨rfl, rfl, rfl, ?_⟩
  intro b s email now hdr hhc hbc hbld h
  obtain ⟨sh, pk, sel, dom, tm, hc2, bc2, ex⟩ := b
  cases pk with
  | none => simp [SignerBuilder.build] at hbld
  | some k =>
    cases sh with
    | none => simp [SignerBuilder.build] at hbld
    | some shv =>
      cases sel with
      | none => simp [SignerBuilder.build] at hbld
      | some selv =>
        cases dom with
        | none => simp [SignerBuilder.build] at hbld
        | some domv =>
          simp only [SignerBuilder.build, RResult.Ok.injEq] at hbld
          subst hbld
          dsimp only at hhc hbc
          subst hhc
          subst hbc
          obtain ⟨bld, sig, hb, hbuild⟩ := signDKIMHeader_ok _ email now hdr h
          have htags := built_header_tags _ _ now bld hdr _ hb hbuild
          unfold DKIMHeader.get_tag
          cases ex with
          | none =>
            rw [htags]
            rfl
          | some d =>
            rw [htags]
            rfl

/-- Witness for C9: the built concrete signer emits `c=simple/simple`. -/
theorem default_canonicalization_witness :
    wBuiltSigner.signDKIMHeader wEmail 0 = RResult.Ok wBuiltHdr ∧
    wBuiltHdr.get_tag "c" = some "simple/simple" :=
  ⟨by decide,
    default_canonicalization.2.2.2 wBuilderFull wBuiltSigner wEmail 0 wBuiltHdr
      rfl rfl rfl (by decide)⟩

/-- C10: for every signer produced by `SignerBuilder::build`, the
`UnsupportedHashAlgorithm` branch of `Signer::sign` is unreachable — `build`
derives the hash algorithm from the key variant, so signing never returns
that error. -/
theorem unsupported_unreachable (b : SignerBuilder) (s : Signer)
    (hbld : b.build = RResult.Ok s) (email : Email) (now : Int) (msg : String) :
    s.signDKIMHeader email now ≠
      RResult.Err (DKIMError.UnsupportedHashAlgorithm msg) := by
  have hcorr : ∀ f, s.private_key = DkimPrivateKey.Rsa f →
      s.hash_algo = HashAlgo.RsaSha256 := by
    obtain ⟨sh, pk, sel, dom, tm, hc2, bc2, ex⟩ := b
    cases pk with
    | none => simp [SignerBuilder.build] at hbld
    | some k =>
      cases sh with
      | none => simp [SignerBuilder.build] at hbld
      | some shv =>
        cases sel with
        | none => simp [SignerBuilder.build] at hbld
        | some selv =>
          cases dom with
          | none => simp [SignerBuilder.build] at hbld
          | some domv =>
            simp only [SignerBuilder.build, RResult.Ok.injEq] at hbld
            subst hbld
            cases k with
            | Rsa f2 =>
              intro f hf
              rfl
            | Ed25519 sk pk2 =>
              intro f hf
              simp at hf
  intro h
  unfold Signer.signDKIMHeader at h
  dsimp only at h
  cases hb : s.dkim_header_builder (s.compute_body_hash email) now with
  | Err e =>
    rw [hb] at h
    dsimp only at h
    obtain ⟨m, rfl⟩ := dkim_header_builder_err s _ now e hb
    simp at h
  | Ok bld =>
    rw [hb] at h
    dsimp only at h
    cases hch : s.compute_header_hash email bld with
    | Err e =>
      rw [hch] at h
      dsimp only at h
      have hberr : ∃ m, e = DKIMError.BuilderError m := by
        unfold Signer.compute_header_hash at hch
        cases hbe : (bld.add_tag "b" "").build with
        | Err e2 =>
          rw [hbe] at hch
          dsimp only at hch
          simp only [RResult.Err.injEq] at hch
          subst hch
          exact builder_build_err _ _ hbe
        | Ok dh =>
          rw [hbe] at hch
          simp at hch
      obtain ⟨m, rfl⟩ := hberr
      simp at h
    | Ok hh =>
      rw [hch] at h
      dsimp only at h
      cases hk : s.private_key with
      | Rsa f =>
        rw [hk] at h
        dsimp only at h
        rw [hcorr f hk] at h
        dsimp only at h
        obtain ⟨m, hm⟩ := builder_build_err _ _ h
        cases hm
      | Ed25519 sk pk2 =>
        rw [hk] at h
        dsimp only at h
        obtain ⟨m, hm⟩ := builder_build_err _ _ h
        cases hm

/-- Witness for C10 at the concrete built signer. -/
theorem unsupported_unreachable_witness :
    wBuiltSigner.signDKIMHeader wEmail 0 ≠
      RResult.Err (DKIMError.UnsupportedHashAlgorithm "Ed25519Sha256") :=
  unsupported_unreachable wBuilderFull wBuiltSigner rfl wEmail 0 "Ed25519Sha256"

/-- C1 counterexample: the claim's own transcription of the Vector 1 email
(CRLF header line endings and a CRLF-terminated body) does not produce the
claimed output — its body is non-empty after the CRLF-CRLF separator, so
`bh=` differs from `frcCV...` (the hash of the canonical empty body), and the
claimed prefix is not even a prefix of the produced header. -/
theorem vector1_claim_counterexample :
    ¬ c1ClaimAsStated ∧
    (strBytes vector1Prefix).isPrefixOf
      (strBytes (rresOk (signResult (vector1Signer zeroRsaSign) vector1EmailCRLF 0))) =
      false := by
  constructor
  · intro hcp
    exact absurd (hcp zeroRsaSign (by decide)) (by decide)
  · decide

/-- C1 (amended to the actual `test_sign_rsa` input bytes, which use bare LF
line endings): `Signer::sign` on the Vector 1 email with the RSA-SHA256 key,
signed headers From and Subject, selector s20, domain example.com,
simple/simple canonicalization and time 1609459201 returns exactly the
expected prefix (with `bh` the hash of the canonical empty body) followed by
the base64 of the 256-byte RSA signature and a trailing semicolon, for every
RSA backend. -/
theorem vector1_sign_amended (rsaSign : RsaPadding → List Nat → List Nat)
    (hlen : (rsaSign RsaPadding.Pkcs1Sha256 vector1HeaderDigest).length = 256) :
    signResult (vector1Signer rsaSign) vector1Email 0 =
    RResult.Ok (vector1Prefix ++
      (base64Encode (rsaSign RsaPadding.Pkcs1Sha256 vector1HeaderDigest) ++ ";")) := by
  have h0 : signResult (vector1Signer rsaSign) vector1Email 0 =
      (vector1SignerS rsaSign).sign vector1Email 0 := rfl
  rw [h0]
  unfold Signer.sign Signer.signDKIMHeader Signer.compute_body_hash
    Signer.compute_header_hash Signer.dkim_header_builder
  dsimp only [vector1SignerS]
  rfl

/-- Witness for the amended C1 at the stand-in 256-byte RSA backend. -/
theorem vector1_sign_amended_witness :
    (zeroRsaSign RsaPadding.Pkcs1Sha256 vector1HeaderDigest).length = 256 ∧
    signResult (vector1Signer zeroRsaSign) vector1Email 0 =
    RResult.Ok (vector1Prefix ++
      (base64Encode (zeroRsaSign RsaPadding.Pkcs1Sha256 vector1HeaderDigest) ++ ";")) :=
  ⟨by decide, vector1_sign_amended zeroRsaSign (by decide)⟩

/-- C2: on the Vector 2 Joe SixPack email with the Ed25519 test keypair,
signed headers [From, To, Subject, Date, Message-ID, From, Subject, Date],
selector brisbane, domain football.example.com, relaxed/relaxed
canonicalization and time 1528637909, `Signer::sign` returns exactly the
expected header, including the Ed25519 signature bytes. -/
theorem vector2_sign_exact :
    signResult vector2Signer vector2Email 0 = RResult.Ok vector2Expected := by
  decide
